import Mathlib

/-
Verification development for the CNRadio repository (RadioPlugin.py and its
track-retriever modules).  The Python source is shallowly embedded below:
pure functions become Lean functions, the mutable MonitorState dataclass and
the plugin's announce-gate attributes become explicit state records threaded
through the step functions, timestamps become Nat parameters, and the
network-facing retrievers become functions of an explicit response datatype
(one constructor per observable shape of the HTTP interaction).
-/

namespace CNRadio

/-! ## Constants (RadioPlugin.py, module level) -/

def LAZY_INTERVAL_STANDARD : Nat := 90

def LAZY_INTERVAL_SPECIAL : Nat := 100

def ACTIVE_INTERVAL_STANDARD : Nat := 15

def ACTIVE_INTERVAL_SPECIAL : Nat := 20

def COMMAND_RESPONSE_DELAY : Nat := 8

def MIN_TITLE_LENGTH : Nat := 3

/-! ## Title normalizer (RadioPlugin.normalize_title)

The Python code is `unicodedata.normalize('NFKC', title.strip()).casefold()`
(with `""` for a falsy input; the `except` fallback is unreachable because
`unicodedata.normalize` does not raise on `str` input).  Strings are modelled
as lists of Unicode code points (`List Nat`).  The Unicode tables are embedded
for the code-point alphabet used in this development: ASCII, and U+02D8 BREVE,
whose NFKC form is U+0020 U+0306 per UnicodeData.txt
(`02D8;BREVE;Sk;0;ON;<compat> 0020 0306;...`).  On this alphabet the embedded
tables agree exactly with Python: no two characters of the alphabet compose
canonically, no other character of the alphabet has a decomposition, and the
full case folding of ASCII coincides with the simple one. -/

/-- Code points stripped by Python str.strip (Python's Unicode whitespace). -/
def pySpaceCp (n : Nat) : Bool :=
  (9 ≤ n && n ≤ 13) || (28 ≤ n && n ≤ 31) || n = 32 || n = 0x85 || n = 0xa0 ||
  n = 0x1680 || (0x2000 ≤ n && n ≤ 0x200a) || n = 0x2028 || n = 0x2029 ||
  n = 0x202f || n = 0x205f || n = 0x3000

/-- Python str.strip: drop leading and trailing whitespace code points. -/
def stripCp (l : List Nat) : List Nat :=
  ((l.dropWhile pySpaceCp).reverse.dropWhile pySpaceCp).reverse

/-- NFKC mapping of one code point, for the modelled alphabet: U+02D8 BREVE
decomposes to U+0020 U+0306 (and the pair does not recompose); every other
modelled code point is NFKC-invariant. -/
def nfkcMapCp (n : Nat) : List Nat :=
  if n = 0x2d8 then [0x20, 0x306] else [n]

/-- NFKC normalization of a code-point string (modelled alphabet). -/
def nfkcCp (l : List Nat) : List Nat := l.flatMap nfkcMapCp

/-- Python str.casefold on one code point (ASCII: uppercase to lowercase;
the other modelled code points fold to themselves). -/
def caseFoldCharCp (n : Nat) : Nat :=
  if 65 ≤ n ∧ n ≤ 90 then n + 32 else n

/-- Python str.casefold on a code-point string. -/
def caseFoldCp (l : List Nat) : List Nat := l.map caseFoldCharCp

/-- RadioPlugin.normalize_title on code points:
strip, then NFKC, then casefold. -/
def normalizeCp (l : List Nat) : List Nat := caseFoldCp (nfkcCp (stripCp l))

/-- Uppercasing of one code point (ASCII), used to express case variants. -/
def upperCp (n : Nat) : Nat :=
  if 97 ≤ n ∧ n ≤ 122 then n - 32 else n

/-- RadioPlugin.normalize_title on Lean strings, via the code-point model. -/
def normalize_title (s : String) : String :=
  String.mk ((normalizeCp (s.data.map Char.toNat)).map Char.ofNat)

/-! ## String helpers for the Python substring and lower-casing idioms -/

/-- Whether the second list is an initial segment of the first. -/
def listStartsWith : List Char → List Char → Bool
  | _, [] => true
  | [], _ :: _ => false
  | a :: as, b :: bs => a == b && listStartsWith as bs

/-- Whether the second list occurs contiguously inside the first
(the Python `needle in hay` test on strings). -/
def listHasSub (hay needle : List Char) : Bool :=
  match hay with
  | [] => listStartsWith [] needle
  | c :: t => listStartsWith (c :: t) needle || listHasSub t needle

/-- Python `needle in hay` on strings. -/
def hasSub (hay needle : String) : Bool := listHasSub hay.data needle.data

/-- Python str.lower for the ASCII station names used by the classifiers. -/
def toLowerStr (s : String) : String := String.mk (s.data.map Char.toLower)

/-- Python str.strip on Lean strings (via the code-point model). -/
def pyStrip (s : String) : String :=
  String.mk ((stripCp (s.data.map Char.toNat)).map Char.ofNat)

/-! ## Pre-installed stations and station classification -/

/-- The RADIO_STATIONS table (name, stream url); descriptions are not used
by any modelled code path. -/
def RADIO_STATIONS : List (String × String) :=
  [("Radio Sidewinder", "https://radiosidewinder.out.airtime.pro:8000/radiosidewinder_b"),
   ("Hutton Orbital Radio", "https://quincy.torontocast.com/hutton"),
   ("SomaFM Deep Space One", "https://ice.somafm.com/deepspaceone"),
   ("SomaFM Groove Salad", "https://ice.somafm.com/groovesalad"),
   ("SomaFM Space Station", "https://ice.somafm.com/spacestation"),
   ("SomaFM Secret Agent", "https://ice.somafm.com/secretagent"),
   ("SomaFM Defcon", "https://ice.somafm.com/defcon"),
   ("SomaFM Lush", "https://ice.somafm.com/lush"),
   ("SomaFM Synphaera", "https://ice.somafm.com/synphaera"),
   ("GalNET Radio", "http://listen.radionomy.com/galnet"),
   ("BigFM", "https://streams.bigfm.de/bigfm-deutschland-128-mp3"),
   ("Radio Capital", "https://playerservices.streamtheworld.com/api/livestream-redirect/CAPITAL.mp3"),
   ("Radio DeeJay", "https://streamcdnm15-4c4b867c89244861ac216426883d1ad0.msvdn.net/radiodeejay/radiodeejay/master_ma.m3u8"),
   ("Radio DeeJay Linetti", "https://streamcdnm3-4c4b867c89244861ac216426883d1ad0.msvdn.net/webradio/deejaywfmlinus/live.m3u8"),
   ("Kohina Radio", "https://player.kohina.com/icecast/stream.opus"),
   ("Radio CVGM", "http://radio.cvgm.net:8000/cvgm128"),
   ("Nectarine Demoscene Radio", "http://necta.burn.net:8000/nectarine"),
   ("Radio Ericade", "http://legacy.ericade.net:8000/stream/1/")]

/-- Known SomaFM station name fragments (RadioPlugin.is_somafm_station). -/
def somafm_station_names : List String :=
  ["deepspaceone", "deep space one", "groovesalad", "groove salad",
   "spacestation", "space station", "secretagent", "secret agent",
   "defcon", "lush", "synphaera"]

/-- RadioPlugin.is_somafm_station; `none` models Python None. -/
def is_somafm_station (station_name : Option String) : Bool :=
  match station_name with
  | none => false
  | some s =>
    if s = "" then false
    else
      let lc := toLowerStr s
      if hasSub lc "somafm" || hasSub lc "soma.fm" then true
      else if somafm_station_names.any (fun n => hasSub lc n) then true
      else
        match (RADIO_STATIONS.find? (fun p => p.fst == s)).map (fun p => p.snd) with
        | some url => hasSub url "somafm.com" || hasSub url "ice.somafm.com"
        | none => false

/-- RadioPlugin.is_hutton_station. -/
def is_hutton_station (station_name : Option String) : Bool :=
  match station_name with
  | none => false
  | some s => if s = "" then false else hasSub (toLowerStr s) "hutton"

/-- RadioPlugin.is_deejay_station. -/
def is_deejay_station (station_name : Option String) : Bool :=
  match station_name with
  | none => false
  | some s => if s = "" then false else hasSub (toLowerStr s) "deejay"

/-- RadioPlugin.is_special_station. -/
def is_special_station (station_name : Option String) : Bool :=
  is_somafm_station station_name || is_hutton_station station_name ||
  is_deejay_station station_name

/-! ## MonitorState (the dataclass in RadioPlugin.py) -/

structure MonitorState where
  current_station : Option String := none
  last_title : String := ""
  last_normalized_title : String := ""
  last_event_time : Nat := 0
  last_check_time : Nat := 0
  command_triggered : Bool := false
  is_lazy_mode : Bool := true
  checks_without_change : Nat := 0
  prev_check_title : Option String := none
  lazy_interval : Nat := LAZY_INTERVAL_STANDARD
  active_interval : Nat := ACTIVE_INTERVAL_STANDARD
  title_repeat_count : List (String × Nat) := []
deriving Repr, DecidableEq

/-- A MonitorState built with the dataclass defaults (`MonitorState()`). -/
def freshMonitorState : MonitorState := {}

/-- MonitorState.current_interval. -/
def MonitorState.current_interval (s : MonitorState) : Nat :=
  if s.is_lazy_mode then s.lazy_interval else s.active_interval

/-- MonitorState.update_intervals_for_station. -/
def update_intervals_for_station (s : MonitorState) (station_name : Option String) :
    MonitorState :=
  let sp := is_special_station station_name
  { s with
    lazy_interval := if sp then LAZY_INTERVAL_SPECIAL else LAZY_INTERVAL_STANDARD,
    active_interval := if sp then ACTIVE_INTERVAL_SPECIAL else ACTIVE_INTERVAL_STANDARD }

/-- MonitorState.reset_for_station_change.  Note that it neither touches
command_triggered nor title_repeat_count. -/
def reset_for_station_change (s : MonitorState) (new_station : Option String) :
    MonitorState :=
  update_intervals_for_station
    { s with
      current_station := new_station,
      last_title := "",
      last_normalized_title := "",
      last_event_time := 0,
      last_check_time := 0,
      is_lazy_mode := true,
      checks_without_change := 0,
      prev_check_title := none }
    new_station

/-! ## The poll step (RadioPlugin._process_track_update) -/

/-- Outcome of one _process_track_update call: either no action, or a call to
_announce_track with the given display title, station and command flag. -/
inductive Outcome where
  | noAction : Outcome
  | announce (display_title : String) (station : Option String)
      (command_triggered : Bool) : Outcome
deriving Repr, DecidableEq

/-- RadioPlugin._process_track_update, translated branch by branch.  The
`now` parameter stands for time.time(). -/
def process_track_update (state : MonitorState) (now : Nat)
    (display_title normalized_title : String) : MonitorState × Outcome :=
  let command_triggered := state.command_triggered
  if state.is_lazy_mode then
    match state.prev_check_title with
    | none =>
      -- first check in lazy mode: store the baseline and always announce
      ({ state with
          prev_check_title := some normalized_title,
          command_triggered := false,
          last_title := normalized_title,
          last_event_time := now },
       Outcome.announce display_title state.current_station command_triggered)
    | some prev =>
      if normalized_title ≠ prev then
        ({ state with
            prev_check_title := some normalized_title,
            last_title := normalized_title,
            last_event_time := now,
            checks_without_change := 0,
            command_triggered := false },
         Outcome.announce display_title state.current_station command_triggered)
      else
        let n := state.checks_without_change + 1
        ({ state with
            checks_without_change := n,
            is_lazy_mode := if n ≥ 2 then false else state.is_lazy_mode },
         Outcome.noAction)
  else
    if normalized_title ≠ state.last_title ∨ command_triggered = true then
      ({ state with
          last_title := normalized_title,
          last_event_time := now,
          command_triggered := false,
          is_lazy_mode := true,
          checks_without_change := 0,
          prev_check_title := some normalized_title },
       Outcome.announce display_title state.current_station command_triggered)
    else
      (state, Outcome.noAction)

/-- The dispatch guard inside RadioPlugin._announce_track: the radio_changed
event is dispatched only when the title is non-empty and its stripped length
is at least MIN_TITLE_LENGTH; otherwise the call returns without dispatching. -/
def announce_emitted (title : String) : Bool :=
  if title = "" then false
  else decide (MIN_TITLE_LENGTH ≤ (pyStrip title).length)

/-- One due iteration of the _monitor_track_changes loop body for a fixed
station: record the poll timestamp, skip when the provider returned no data,
otherwise normalize and process the title. -/
def monitor_poll_tick (state : MonitorState) (now : Nat) (display_title : String) :
    MonitorState × Outcome :=
  let state := { state with last_check_time := now }
  if display_title = "" then (state, Outcome.noAction)
  else process_track_update state now display_title (normalize_title display_title)

/-- The start-of-thread phase of RadioPlugin._monitor_track_changes: when
command_triggered is set the thread sleeps the grace delay and then clears the
flag, and in every case it then resets the state for the current station
(reset_for_station_change preserves the, by now cleared, flag). -/
def monitor_thread_start (state : MonitorState) (station : Option String) :
    MonitorState :=
  let state :=
    if state.command_triggered then { state with command_triggered := false }
    else state
  reset_for_station_change state station

/-- States reachable from a fresh MonitorState by any sequence of due poll
iterations. -/
inductive ReachableMonitorState : MonitorState → Prop where
  | fresh : ReachableMonitorState freshMonitorState
  | step (s : MonitorState) (now : Nat) (display_title : String) :
      ReachableMonitorState s →
      ReachableMonitorState (monitor_poll_tick s now display_title).1

/-! ## The announce gate (RadioPlugin._should_reply_to_radio_event)

The gate's process-wide memory is the plugin attributes _last_replied_title,
_last_replied_station, _last_reply_time and _title_repeat_count; a Python dict
with string keys is modelled as a duplicate-free association list with
insertion-order update semantics. -/

/-- Lookup in the dict model; Python dict.get(key, 0). -/
def dictGet (d : List (String × Nat)) (k : String) : Nat :=
  match d.find? (fun p => p.fst == k) with
  | some p => p.snd
  | none => 0

/-- Assignment in the dict model; Python d[key] = v (replace in place, or
append a new key at the end). -/
def dictSet : List (String × Nat) → String → Nat → List (String × Nat)
  | [], k, v => [(k, v)]
  | p :: t, k, v => if p.fst = k then (k, v) :: t else p :: dictSet t k v

structure GateState where
  last_replied_title : Option String := none
  last_replied_station : Option String := none
  last_reply_time : Nat := 0
  title_repeat_count : List (String × Nat) := []
deriving Repr, DecidableEq

/-- RadioPlugin._should_reply_to_radio_event on a well-formed event payload
[title, station, command_triggered, event_time]; `now` stands for
time.time().  Returns the updated gate memory and the boolean decision. -/
def should_reply_to_radio_event (g : GateState) (now : Nat)
    (title station : String) (command_triggered : Bool) : GateState × Bool :=
  if title = "" ∨ hasSub (toLowerStr title) "unknown" = true ∨
      (pyStrip title).length < MIN_TITLE_LENGTH then
    (g, false)
  else
    let normalized_title := normalize_title title
    let last_title_norm := normalize_title (g.last_replied_title.getD "")
    let track_key := normalized_title ++ "|" ++ station
    if command_triggered then
      ({ g with
          last_replied_title := some title,
          last_replied_station := some station,
          last_reply_time := now,
          title_repeat_count := dictSet g.title_repeat_count track_key 0 },
       true)
    else if normalized_title = last_title_norm ∧
        g.last_replied_station = some station then
      (g, false)
    else
      let cnt := dictGet g.title_repeat_count track_key + 1
      let g1 := { g with title_repeat_count := dictSet g.title_repeat_count track_key cnt }
      if cnt > 1 then (g1, false)
      else
        ({ g1 with
            last_replied_title := some title,
            last_replied_station := some station,
            last_reply_time := now },
         true)

/-! ## Track retrievers

Each network-facing retriever is embedded as a function of an explicit
response datatype with one constructor per observable shape of the HTTP
interaction; the module-level caches are bypassed (the functions model the
cache-miss path, which is the one that performs the fetch). -/

/-- Observable result of the Hutton Orbital ICY request
(hutton_orbital_track_retriever.get_hutton_track_info): an exception
(timeout, network error), or a response with its status code, whether the
icy-metaint header is present, the metadata length byte (none when the stream
yielded no byte), and the result of the StreamTitle regex search on the
decoded metadata. -/
inductive HuttonFetch where
  | exn : HuttonFetch
  | resp (status : Nat) (icy_metaint : Bool) (meta_length_byte : Option Nat)
      (stream_title_match : Option String) : HuttonFetch
deriving Repr, DecidableEq

/-- hutton_orbital_track_retriever.get_hutton_track_info. -/
def get_hutton_track_info : HuttonFetch → String
  | HuttonFetch.exn => "Unavailable"
  | HuttonFetch.resp status icy mlb tmatch =>
    if status ≠ 200 then "Unavailable"
    else if icy then
      match mlb with
      | none => "Unavailable"
      | some b =>
        if b * 16 > 0 then
          match tmatch with
          | some t => t
          | none => "Unavailable"
        else "Unavailable"
    else "Unavailable"

/-- One entry of the SomaFM songs JSON (artist, title, album; absent fields
are the empty string, matching dict.get(key, '')). -/
structure SomaSong where
  artist : String := ""
  title : String := ""
  album : String := ""
deriving Repr, DecidableEq

/-- Observable result of the SomaFM songs-API request: an exception, or a
response with its status code and the decoded songs list (none when the
payload has no songs key or fails to decode). -/
inductive SomaJsonFetch where
  | exn : SomaJsonFetch
  | resp (status : Nat) (songs : Option (List SomaSong)) : SomaJsonFetch
deriving Repr, DecidableEq

/-- somafm_track_retriever._get_from_json_api. -/
def get_from_json_api : SomaJsonFetch → Option String
  | SomaJsonFetch.exn => none
  | SomaJsonFetch.resp status songs =>
    if status = 200 then
      match songs with
      | some (song :: _) =>
        if song.artist ≠ "" ∧ song.title ≠ "" then
          if song.album ≠ "" then
            some (song.artist ++ " - " ++ song.title ++ " [" ++ song.album ++ "]")
          else some (song.artist ++ " - " ++ song.title)
        else if song.title ≠ "" then some song.title
        else none
      | _ => none
    else none

/-- somafm_track_retriever._get_from_channels_api, reading the channels cache
(id, lastPlaying pairs); returns the first channel with the wanted id and a
non-empty lastPlaying.  A `none` cache models both an empty cache together
with a failed refresh, and an undecodable channels payload. -/
def get_from_channels_api (cache : Option (List (String × String)))
    (station_id : String) : Option String :=
  match cache with
  | none => none
  | some channels =>
    match channels.find? (fun p => p.fst == station_id && p.snd != "") with
    | some p => some p.snd
    | none => none

/-- somafm_track_retriever.get_somafm_track_info on a track-cache miss:
try the songs API, fall back to the channels API, default to the empty
string (the Python `track_info or ""`). -/
def get_somafm_track_info (json_api_result channels_api_result : Option String) :
    String :=
  let track_info := json_api_result.getD ""
  if track_info = "" then channels_api_result.getD "" else track_info

/-- The decoded body of the Radio Deejay onair JSON: the top-level title
field (default format) and the json.now.artist / json.now.title fields
(Linetti format); `none` models an absent field. -/
structure DeejayData where
  title : Option String := none
  now_artist : Option String := none
  now_title : Option String := none
deriving Repr, DecidableEq

/-- deejay_track_retriever._map_title. -/
def map_title (d : DeejayData) (is_linetti : Bool) : String :=
  if is_linetti then
    let artist := d.now_artist.getD ""
    let t := d.now_title.getD ""
    if artist ≠ "" ∧ t ≠ "" then pyStrip (artist ++ " - " ++ t)
    else t
  else pyStrip (d.title.getD "")

/-- Observable result of the Radio Deejay request: an exception, or a
response with its status code and decoded body (none = JSON decode error). -/
inductive DeejayFetch where
  | exn : DeejayFetch
  | resp (status : Nat) (body : Option DeejayData) : DeejayFetch
deriving Repr, DecidableEq

/-- deejay_track_retriever.get_deejay_track_info on a cache miss. -/
def get_deejay_track_info (station_name : Option String) (f : DeejayFetch) :
    String :=
  let is_linetti : Bool :=
    match station_name with
    | some s => s != "" && hasSub (toLowerStr s) "linetti"
    | none => false
  match f with
  | DeejayFetch.exn => ""
  | DeejayFetch.resp status body =>
    if status ≠ 200 then ""
    else
      match body with
      | none => ""
      | some d => map_title d is_linetti

/-- Observable state of the VLC metadata path in RadioPlugin._get_track_info:
no player, no media, an exception, or the NowPlaying / Title metadata
(none = Python None). -/
inductive VlcMeta where
  | no_player : VlcMeta
  | no_media : VlcMeta
  | exn : VlcMeta
  | meta (now_playing : Option String) (title : Option String) : VlcMeta
deriving Repr, DecidableEq

/-- The VLC fallback branch of RadioPlugin._get_track_info:
`now_playing or title or ""`. -/
def vlc_track_info : VlcMeta → String
  | VlcMeta.no_player => ""
  | VlcMeta.no_media => ""
  | VlcMeta.exn => ""
  | VlcMeta.meta now_playing title =>
    let np := now_playing.getD ""
    if np ≠ "" then np else title.getD ""

/-- The observable backend world for one poll: the response each retriever
would see (and the station id the SomaFM helpers would be called with; its
regex-based extraction is not needed by any claim). -/
structure ProviderWorld where
  somafm_json : SomaJsonFetch
  somafm_channels_cache : Option (List (String × String))
  somafm_station_id : String
  hutton : HuttonFetch
  deejay : DeejayFetch
  vlc : VlcMeta
deriving Repr, DecidableEq

/-- RadioPlugin._get_track_info: dispatch on the station classification. -/
def get_track_info (station_name : Option String) (w : ProviderWorld) : String :=
  match station_name with
  | none => ""
  | some s =>
    if s = "" then ""
    else if is_somafm_station (some s) then
      get_somafm_track_info (get_from_json_api w.somafm_json)
        (get_from_channels_api w.somafm_channels_cache w.somafm_station_id)
    else if is_hutton_station (some s) then get_hutton_track_info w.hutton
    else if is_deejay_station (some s) then get_deejay_track_info (some s) w.deejay
    else vlc_track_info w.vlc

/-! ## Concrete states used by witnesses and counterexamples -/

/-- The backend world in which every retriever request fails with an
exception (timeout / network error). -/
def failedProviderWorld : ProviderWorld :=
  { somafm_json := SomaJsonFetch.exn,
    somafm_channels_cache := none,
    somafm_station_id := "",
    hutton := HuttonFetch.exn,
    deejay := DeejayFetch.exn,
    vlc := VlcMeta.exn }

/-- A fresh MonitorState right after _start_radio set the command flag. -/
def cmdMonitorState : MonitorState :=
  { freshMonitorState with command_triggered := true }

/-- A lazy-mode MonitorState with a captured baseline and no unchanged
checks yet. -/
def lazyBaselineState : MonitorState :=
  { freshMonitorState with prev_check_title := some "song a" }

/-- A lazy-mode MonitorState one unchanged check away from the mode flip. -/
def lazyOneCheckState : MonitorState :=
  { freshMonitorState with prev_check_title := some "song a",
                           checks_without_change := 1 }

/-- An active-mode MonitorState whose last announced normalized title is
"song a". -/
def activeMonitorState : MonitorState :=
  { freshMonitorState with is_lazy_mode := false, last_title := "song a" }

/-- Gate memory after accepting "Song A" and then "Song B" on StationX from
a clean start (so the repeat counter of "song a|StationX" is already 1). -/
def gateAfterTwoAccepts : GateState :=
  (should_reply_to_radio_event
    (should_reply_to_radio_event {} 10 "Song A" "StationX" false).1
    20 "Song B" "StationX" false).1

/-! ## Helper lemmas -/

theorem dictGet_dictSet (d : List (String × Nat)) (k : String) (v : Nat) :
    dictGet (dictSet d k v) k = v := by
  induction d with
  | nil => simp [dictSet, dictGet]
  | cons p t ih =>
    by_cases h : p.fst = k
    · simp [dictSet, h, dictGet]
    · have hb : (p.1 == k) = false := by simp [h]
      simp only [dictSet, if_neg h]
      simpa [dictGet, List.find?_cons, hb] using ih

theorem ptu_lazy_first (s : MonitorState) (now : Nat) (d n : String)
    (hlazy : s.is_lazy_mode = true) (hbase : s.prev_check_title = none) :
    process_track_update s now d n =
      ({ s with prev_check_title := some n, command_triggered := false,
                last_title := n, last_event_time := now },
       Outcome.announce d s.current_station s.command_triggered) := by
  simp [process_track_update, hlazy, hbase]

theorem ptu_lazy_changed (s : MonitorState) (now : Nat) (d n p : String)
    (hlazy : s.is_lazy_mode = true) (hbase : s.prev_check_title = some p)
    (hne : n ≠ p) :
    process_track_update s now d n =
      ({ s with prev_check_title := some n, last_title := n,
                last_event_time := now, checks_without_change := 0,
                command_triggered := false },
       Outcome.announce d s.current_station s.command_triggered) := by
  simp [process_track_update, hlazy, hbase, hne]

theorem ptu_lazy_unchanged (s : MonitorState) (now : Nat) (d p : String)
    (hlazy : s.is_lazy_mode = true) (hbase : s.prev_check_title = some p) :
    process_track_update s now d p =
      ({ s with checks_without_change := s.checks_without_change + 1,
                is_lazy_mode :=
                  if s.checks_without_change + 1 ≥ 2 then false else true },
       Outcome.noAction) := by
  simp [process_track_update, hlazy, hbase]

theorem ptu_active_announce (s : MonitorState) (now : Nat) (d n : String)
    (hact : s.is_lazy_mode = false)
    (hch : n ≠ s.last_title ∨ s.command_triggered = true) :
    process_track_update s now d n =
      ({ s with last_title := n, last_event_time := now,
                command_triggered := false, is_lazy_mode := true,
                checks_without_change := 0, prev_check_title := some n },
       Outcome.announce d s.current_station s.command_triggered) := by
  simp [process_track_update, hact, hch]

theorem ptu_active_still (s : MonitorState) (now : Nat) (d : String)
    (hact : s.is_lazy_mode = false) (hcmd : s.command_triggered = false) :
    process_track_update s now d s.last_title = (s, Outcome.noAction) := by
  simp [process_track_update, hact, hcmd]

/-- One _process_track_update step preserves the counter invariant of the
monitor state machine. -/
theorem inv_process_step (s : MonitorState) (now : Nat) (d n : String)
    (h1 : s.is_lazy_mode = true → s.checks_without_change ≤ 1)
    (h2 : s.checks_without_change ≤ 2) :
    ((process_track_update s now d n).1.is_lazy_mode = true →
      (process_track_update s now d n).1.checks_without_change ≤ 1) ∧
    (process_track_update s now d n).1.checks_without_change ≤ 2 := by
  by_cases hl : s.is_lazy_mode = true
  · cases hbase : s.prev_check_title with
    | none =>
      rw [ptu_lazy_first s now d n hl hbase]
      exact ⟨fun _ => h1 hl, h2⟩
    | some p =>
      by_cases hne : n = p
      · subst hne
        rw [ptu_lazy_unchanged s now d n hl hbase]
        have hc := h1 hl
        constructor
        · intro hlz
          have hlz2 : (if s.checks_without_change + 1 ≥ 2 then false else true) = true := hlz
          by_cases hge : s.checks_without_change + 1 ≥ 2
          · rw [if_pos hge] at hlz2
            exact absurd hlz2 (by simp)
          · show s.checks_without_change + 1 ≤ 1
            omega
        · show s.checks_without_change + 1 ≤ 2
          omega
      · rw [ptu_lazy_changed s now d n p hl hbase hne]
        exact ⟨fun _ => Nat.zero_le 1, Nat.zero_le 2⟩
  · have hl2 : s.is_lazy_mode = false := by
      cases hm : s.is_lazy_mode
      · rfl
      · exact absurd hm hl
    by_cases hch : n ≠ s.last_title ∨ s.command_triggered = true
    · rw [ptu_active_announce s now d n hl2 hch]
      exact ⟨fun _ => Nat.zero_le 1, Nat.zero_le 2⟩
    · push_neg at hch
      obtain ⟨heq, hcmd⟩ := hch
      have hcmd2 : s.command_triggered = false := by
        cases hc2 : s.command_triggered
        · rfl
        · exact absurd hc2 hcmd
      rw [heq, ptu_active_still s now d hl2 hcmd2]
      exact ⟨h1, h2⟩

/-- C4: in Active mode, a poll whose normalized title differs from the last
announced normalized title, or that has commandTriggered set, yields the
Announce outcome and a post-state that is back in Lazy mode with a zeroed
unchanged counter and with the baseline (prev_check_title) and the last
announced title both set to the new normalized title. -/
theorem C4_active_change_announce (s : MonitorState) (now : Nat) (d n : String)
    (hact : s.is_lazy_mode = false)
    (hch : n ≠ s.last_title ∨ s.command_triggered = true) :
    (process_track_update s now d n).2 =
      Outcome.announce d s.current_station s.command_triggered ∧
    (process_track_update s now d n).1.is_lazy_mode = true ∧
    (process_track_update s now d n).1.checks_without_change = 0 ∧
    (process_track_update s now d n).1.prev_check_title = some n ∧
    (process_track_update s now d n).1.last_title = n := by
  rw [ptu_active_announce s now d n hact hch]
  exact ⟨rfl, rfl, rfl, rfl, rfl⟩

/-- Witness for C4 at a concrete active-mode state and a genuinely new
normalized title. -/
theorem C4_active_change_announce_witness :
    (process_track_update activeMonitorState 5 "Song B" "song b").2 =
      Outcome.announce "Song B" activeMonitorState.current_station
        activeMonitorState.command_triggered ∧
    (process_track_update activeMonitorState 5 "Song B" "song b").1.is_lazy_mode = true ∧
    (process_track_update activeMonitorState 5 "Song B" "song b").1.checks_without_change = 0 ∧
    (process_track_update activeMonitorState 5 "Song B" "song b").1.prev_check_title =
      some "song b" ∧
    (process_track_update activeMonitorState 5 "Song B" "song b").1.last_title = "song b" :=
  C4_active_change_announce activeMonitorState 5 "Song B" "song b" rfl
    (Or.inl (by decide))

/-- C5: a poll step changes the mode only in two ways: Lazy to Active only on
an unchanged check (the normalized title equals the stored baseline) whose
pre-state counter is already at least 1, so only after two consecutive
unchanged Lazy checks; and Active to Lazy only when the normalized title
differs from the last announced one or commandTriggered forces an announce. -/
theorem C5_mode_transitions (s : MonitorState) (now : Nat) (d n : String) :
    ((process_track_update s now d n).1.is_lazy_mode = false →
      s.is_lazy_mode = true →
      s.prev_check_title = some n ∧ 1 ≤ s.checks_without_change) ∧
    ((process_track_update s now d n).1.is_lazy_mode = true →
      s.is_lazy_mode = false →
      (n ≠ s.last_title ∨ s.command_triggered = true)) := by
  constructor
  · intro hpost hl
    cases hbase : s.prev_check_title with
    | none =>
      rw [ptu_lazy_first s now d n hl hbase] at hpost
      have hx : s.is_lazy_mode = false := hpost
      rw [hl] at hx
      cases hx
    | some p =>
      by_cases hne : n = p
      · subst hne
        rw [ptu_lazy_unchanged s now d n hl hbase] at hpost
        have hx : (if s.checks_without_change + 1 ≥ 2 then false else true) = false :=
          hpost
        by_cases hge : s.checks_without_change + 1 ≥ 2
        · exact ⟨rfl, by omega⟩
        · rw [if_neg hge] at hx
          exact absurd hx (by simp)
      · rw [ptu_lazy_changed s now d n p hl hbase hne] at hpost
        have hx : s.is_lazy_mode = false := hpost
        rw [hl] at hx
        cases hx
  · intro hpost hl2
    by_cases hch : n ≠ s.last_title ∨ s.command_triggered = true
    · exact hch
    · push_neg at hch
      obtain ⟨heq, hcmd⟩ := hch
      have hcmd2 : s.command_triggered = false := by
        cases hc2 : s.command_triggered
        · rfl
        · exact absurd hc2 hcmd
      rw [heq, ptu_active_still s now d hl2 hcmd2] at hpost
      rw [hl2] at hpost
      cases hpost

/-- Witness for C5 at a concrete Lazy-to-Active flip: the flipping step was
indeed an unchanged check with an already positive counter. -/
theorem C5_mode_transitions_witness :
    lazyOneCheckState.prev_check_title = some "song a" ∧
    1 ≤ lazyOneCheckState.checks_without_change :=
  (C5_mode_transitions lazyOneCheckState 0 "Song A" "song a").1 (by decide) rfl

/-- C8: in Lazy mode with a baseline set and no unchanged checks yet,
feeding the same normalized title on two consecutive polls yields NoAction
twice, increments the counter to 1 and then 2, and flips the mode to Active
exactly on the second unchanged check. -/
theorem C8_two_unchanged_polls (s : MonitorState) (now1 now2 : Nat)
    (d1 d2 p : String) (hlazy : s.is_lazy_mode = true)
    (hbase : s.prev_check_title = some p) (hc : s.checks_without_change = 0) :
    (process_track_update s now1 d1 p).2 = Outcome.noAction ∧
    (process_track_update s now1 d1 p).1.checks_without_change = 1 ∧
    (process_track_update s now1 d1 p).1.is_lazy_mode = true ∧
    (process_track_update (process_track_update s now1 d1 p).1 now2 d2 p).2 =
      Outcome.noAction ∧
    (process_track_update (process_track_update s now1 d1 p).1 now2 d2 p).1.checks_without_change = 2 ∧
    (process_track_update (process_track_update s now1 d1 p).1 now2 d2 p).1.is_lazy_mode = false := by
  have h1 := ptu_lazy_unchanged s now1 d1 p hlazy hbase
  rw [hc] at h1
  norm_num at h1
  rw [h1]
  have h2 := ptu_lazy_unchanged
    { s with checks_without_change := 1, is_lazy_mode := true } now2 d2 p rfl hbase
  norm_num at h2
  rw [h2]
  exact ⟨rfl, rfl, rfl, rfl, rfl, rfl⟩

/-- Witness for C8 at a concrete baseline state. -/
theorem C8_two_unchanged_polls_witness :
    (process_track_update lazyBaselineState 1 "Song A" "song a").2 = Outcome.noAction ∧
    (process_track_update lazyBaselineState 1 "Song A" "song a").1.checks_without_change = 1 ∧
    (process_track_update lazyBaselineState 1 "Song A" "song a").1.is_lazy_mode = true ∧
    (process_track_update (process_track_update lazyBaselineState 1 "Song A" "song a").1
        2 "Song A" "song a").2 = Outcome.noAction ∧
    (process_track_update (process_track_update lazyBaselineState 1 "Song A" "song a").1
        2 "Song A" "song a").1.checks_without_change = 2 ∧
    (process_track_update (process_track_update lazyBaselineState 1 "Song A" "song a").1
        2 "Song A" "song a").1.is_lazy_mode = false :=
  C8_two_unchanged_polls lazyBaselineState 1 2 "Song A" "Song A" "song a" rfl rfl rfl

/-- C10: in every state reachable from a fresh MonitorState by poll steps,
a Lazy-mode state has at most 1 unchanged check recorded, the counter never
exceeds 2, and a counter of 2 occurs only in Active mode (the instant of the
flip). -/
theorem C10_counter_invariant (s : MonitorState) (h : ReachableMonitorState s) :
    (s.is_lazy_mode = true → s.checks_without_change ≤ 1) ∧
    s.checks_without_change ≤ 2 ∧
    (s.checks_without_change = 2 → s.is_lazy_mode = false) := by
  have main : (s.is_lazy_mode = true → s.checks_without_change ≤ 1) ∧
      s.checks_without_change ≤ 2 := by
    induction h with
    | fresh => exact ⟨fun _ => by decide, by decide⟩
    | step s now dt hs ih =>
      unfold monitor_poll_tick
      by_cases hd : dt = ""
      · rw [if_pos hd]
        exact ⟨fun hz => ih.1 hz, ih.2⟩
      · rw [if_neg hd]
        exact inv_process_step { s with last_check_time := now } now dt
          (normalize_title dt) (fun hz => ih.1 hz) ih.2
  refine ⟨main.1, main.2, fun h2 => ?_⟩
  cases hm : s.is_lazy_mode
  · rfl
  · have := main.1 hm
    omega

/-- Witness for C10 at the state reached by three consecutive identical
polls from a fresh state (which is in Active mode with counter 2). -/
theorem C10_counter_invariant_witness :
    ((monitor_poll_tick (monitor_poll_tick (monitor_poll_tick freshMonitorState
        0 "Song A").1 1 "Song A").1 2 "Song A").1.is_lazy_mode = true →
      (monitor_poll_tick (monitor_poll_tick (monitor_poll_tick freshMonitorState
        0 "Song A").1 1 "Song A").1 2 "Song A").1.checks_without_change ≤ 1) ∧
    (monitor_poll_tick (monitor_poll_tick (monitor_poll_tick freshMonitorState
        0 "Song A").1 1 "Song A").1 2 "Song A").1.checks_without_change ≤ 2 ∧
    ((monitor_poll_tick (monitor_poll_tick (monitor_poll_tick freshMonitorState
        0 "Song A").1 1 "Song A").1 2 "Song A").1.checks_without_change = 2 →
      (monitor_poll_tick (monitor_poll_tick (monitor_poll_tick freshMonitorState
        0 "Song A").1 1 "Song A").1 2 "Song A").1.is_lazy_mode = false) :=
  C10_counter_invariant _
    (ReachableMonitorState.step _ 2 "Song A"
      (ReachableMonitorState.step _ 1 "Song A"
        (ReachableMonitorState.step _ 0 "Song A" ReachableMonitorState.fresh)))

/-! ## Normalizer lemmas -/

theorem pySpaceCp_upperCp (n : Nat) : pySpaceCp (upperCp n) = pySpaceCp n := by
  unfold upperCp
  split
  · rename_i h
    have ha : pySpaceCp (n - 32) = false := by
      simp only [pySpaceCp, Bool.or_eq_false_iff, Bool.and_eq_false_iff,
        decide_eq_false_iff_not]
      omega
    have hb : pySpaceCp n = false := by
      simp only [pySpaceCp, Bool.or_eq_false_iff, Bool.and_eq_false_iff,
        decide_eq_false_iff_not]
      omega
    rw [ha, hb]
  · rfl

theorem caseFoldCharCp_upperCp (n : Nat) :
    caseFoldCharCp (upperCp n) = caseFoldCharCp n := by
  unfold upperCp caseFoldCharCp
  split_ifs <;> omega

theorem nfkcMapCp_upperCp (n : Nat) :
    nfkcMapCp (upperCp n) = (nfkcMapCp n).map upperCp := by
  unfold upperCp nfkcMapCp
  split
  · rename_i h
    rw [if_neg (by omega), if_neg (by omega)]
    simp only [List.map_cons, List.map_nil, upperCp, if_pos h]
  · rename_i h
    split
    · rename_i h2
      subst h2
      decide
    · rename_i h2
      simp only [List.map_cons, List.map_nil, upperCp, if_neg h]

theorem dropWhile_map_of_pres (p : Nat → Bool) (f : Nat → Nat)
    (hf : ∀ a, p (f a) = p a) (l : List Nat) :
    List.dropWhile p (l.map f) = (List.dropWhile p l).map f := by
  induction l with
  | nil => rfl
  | cons a t ih =>
    simp only [List.map_cons, List.dropWhile_cons, hf a]
    cases hpa : p a
    · simp
    · simpa using ih

theorem stripCp_map_upperCp (l : List Nat) :
    stripCp (l.map upperCp) = (stripCp l).map upperCp := by
  unfold stripCp
  rw [dropWhile_map_of_pres pySpaceCp upperCp pySpaceCp_upperCp l,
    ← List.map_reverse,
    dropWhile_map_of_pres pySpaceCp upperCp pySpaceCp_upperCp,
    ← List.map_reverse]

theorem flatMap_map_comm (f : Nat → Nat) (g : Nat → List Nat)
    (hfg : ∀ n, g (f n) = (g n).map f) (l : List Nat) :
    (l.map f).flatMap g = (l.flatMap g).map f := by
  induction l with
  | nil => rfl
  | cons a t ih =>
    simp only [List.map_cons, List.flatMap_cons, hfg a, ih, List.map_append]

theorem nfkcCp_map_upperCp (l : List Nat) :
    nfkcCp (l.map upperCp) = (nfkcCp l).map upperCp :=
  flatMap_map_comm upperCp nfkcMapCp nfkcMapCp_upperCp l

theorem caseFoldCp_map_upperCp (l : List Nat) :
    caseFoldCp (l.map upperCp) = caseFoldCp l := by
  unfold caseFoldCp
  rw [List.map_map]
  exact congrFun (congrArg List.map (funext caseFoldCharCp_upperCp)) l

theorem nfkcMapCp_no_breve (n x : Nat) (hx : x ∈ nfkcMapCp n) : x ≠ 0x2d8 := by
  unfold nfkcMapCp at hx
  split at hx
  · simp only [List.mem_cons, List.not_mem_nil, or_false] at hx
    rcases hx with h | h <;> omega
  · rename_i h
    simp only [List.mem_singleton] at hx
    omega

theorem nfkcCp_no_breve (l : List Nat) (x : Nat) (hx : x ∈ nfkcCp l) :
    x ≠ 0x2d8 := by
  unfold nfkcCp at hx
  rw [List.mem_flatMap] at hx
  obtain ⟨a, _, hxa⟩ := hx
  exact nfkcMapCp_no_breve a x hxa

theorem caseFoldCharCp_eq_breve (n : Nat) (h : caseFoldCharCp n = 0x2d8) :
    n = 0x2d8 := by
  unfold caseFoldCharCp at h
  split at h <;> omega

theorem nfkcCp_fixed_of_no_breve (l : List Nat) (h : ∀ x ∈ l, x ≠ 0x2d8) :
    nfkcCp l = l := by
  induction l with
  | nil => rfl
  | cons a t ih =>
    have ha : a ≠ 0x2d8 := h a (List.mem_cons_self a t)
    simp only [nfkcCp, List.flatMap_cons]
    rw [show nfkcMapCp a = [a] from by unfold nfkcMapCp; rw [if_neg ha]]
    have ht := ih (fun x hx => h x (List.mem_cons_of_mem a hx))
    unfold nfkcCp at ht
    rw [ht]
    rfl

theorem caseFoldCharCp_idem (n : Nat) :
    caseFoldCharCp (caseFoldCharCp n) = caseFoldCharCp n := by
  unfold caseFoldCharCp
  split_ifs <;> omega

theorem caseFoldCp_idem (l : List Nat) :
    caseFoldCp (caseFoldCp l) = caseFoldCp l := by
  unfold caseFoldCp
  rw [List.map_map]
  exact congrFun (congrArg List.map (funext caseFoldCharCp_idem)) l

theorem normalizeCp_no_breve (l : List Nat) (x : Nat) (hx : x ∈ normalizeCp l) :
    x ≠ 0x2d8 := by
  unfold normalizeCp caseFoldCp at hx
  rw [List.mem_map] at hx
  obtain ⟨y, hy, hyx⟩ := hx
  intro hcontra
  rw [hcontra] at hyx
  exact nfkcCp_no_breve _ y hy (caseFoldCharCp_eq_breve y hyx)

/-- C9 counterexample: the title normalizer is not idempotent, and NFKC
compatibility variants of the same string do not always normalize
identically.  The input is U+02D8 BREVE, whose NFKC form starts with a
space that the second application's strip removes. -/
theorem C9_not_idempotent_counterexample :
    normalizeCp (normalizeCp [0x2d8]) ≠ normalizeCp [0x2d8] ∧
    normalizeCp (nfkcCp [0x2d8]) ≠ normalizeCp [0x2d8] ∧
    normalize_title (normalize_title (String.mk [Char.ofNat 0x2d8])) ≠
      normalize_title (String.mk [Char.ofNat 0x2d8]) := by
  refine ⟨by decide, by decide, ?_⟩
  decide

/-- C9 (amended): the normalizer is a pure total function with
normalize("") = "", case variants of a string normalize identically, and
idempotence holds exactly on the inputs whose normalized form carries no
leading or trailing whitespace (it fails in general, see the
counterexample). -/
theorem C9_normalizer_laws (l : List Nat) :
    normalizeCp [] = [] ∧
    normalizeCp (l.map upperCp) = normalizeCp l ∧
    (stripCp (normalizeCp l) = normalizeCp l →
      normalizeCp (normalizeCp l) = normalizeCp l) := by
  refine ⟨rfl, ?_, ?_⟩
  · show caseFoldCp (nfkcCp (stripCp (l.map upperCp))) = normalizeCp l
    rw [stripCp_map_upperCp, nfkcCp_map_upperCp, caseFoldCp_map_upperCp]
    rfl
  · intro hfix
    show caseFoldCp (nfkcCp (stripCp (normalizeCp l))) = normalizeCp l
    rw [hfix,
      nfkcCp_fixed_of_no_breve (normalizeCp l) (normalizeCp_no_breve l)]
    show caseFoldCp (caseFoldCp (nfkcCp (stripCp l))) = normalizeCp l
    rw [caseFoldCp_idem]
    rfl

/-- Witness for C9 (amended) on the concrete string "hI" (code points
104, 73): its uppercase variant normalizes identically and the normalizer
is idempotent there. -/
theorem C9_normalizer_laws_witness :
    normalizeCp ([104, 73].map upperCp) = normalizeCp [104, 73] ∧
    normalizeCp (normalizeCp [104, 73]) = normalizeCp [104, 73] :=
  ⟨(C9_normalizer_laws [104, 73]).2.1,
   (C9_normalizer_laws [104, 73]).2.2 (by decide)⟩

/-! ## Announce-gate claims -/

/-- C6 counterexample: from the gate memory reached by accepting "Song A"
and then "Song B" on StationX, the candidate ("Song A", StationX, no
command) is rejected, yet the repeat-count map is mutated (the count of
"song a|StationX" is bumped from 1 to 2), so a false return does not leave
every component of the gate memory unchanged. -/
theorem C6_reject_mutates_counterexample :
    (should_reply_to_radio_event gateAfterTwoAccepts 30 "Song A" "StationX" false).2 =
      false ∧
    (should_reply_to_radio_event gateAfterTwoAccepts 30 "Song A" "StationX"
        false).1.title_repeat_count ≠ gateAfterTwoAccepts.title_repeat_count ∧
    (should_reply_to_radio_event gateAfterTwoAccepts 30 "Song A" "StationX" false).1 ≠
      gateAfterTwoAccepts := by
  exact ⟨by decide, by decide, by decide⟩

/-- C6 (amended): when _should_reply_to_radio_event returns false it leaves
lastRepliedTitle, lastRepliedStation and lastRepliedAt unchanged, and it
leaves the repeat-count map unchanged except in the repeat-suppression
branch, where the count of the candidate's (normalized title, station) key
is incremented despite the false result. -/
theorem C6_false_leaves_reply_memory (g : GateState) (now : Nat)
    (title station : String) (ct : Bool)
    (hfalse : (should_reply_to_radio_event g now title station ct).2 = false) :
    (should_reply_to_radio_event g now title station ct).1.last_replied_title =
      g.last_replied_title ∧
    (should_reply_to_radio_event g now title station ct).1.last_replied_station =
      g.last_replied_station ∧
    (should_reply_to_radio_event g now title station ct).1.last_reply_time =
      g.last_reply_time ∧
    ((should_reply_to_radio_event g now title station ct).1.title_repeat_count =
        g.title_repeat_count ∨
      (should_reply_to_radio_event g now title station ct).1.title_repeat_count =
        dictSet g.title_repeat_count (normalize_title title ++ "|" ++ station)
          (dictGet g.title_repeat_count (normalize_title title ++ "|" ++ station) + 1)) := by
  by_cases h1 : title = "" ∨ hasSub (toLowerStr title) "unknown" = true ∨
      (pyStrip title).length < MIN_TITLE_LENGTH
  · simp only [should_reply_to_radio_event, if_pos h1]
    simp
  · cases ct with
    | true =>
      have ht : (should_reply_to_radio_event g now title station true).2 = true := by
        simp [should_reply_to_radio_event, if_neg h1]
      rw [ht] at hfalse
      cases hfalse
    | false =>
      by_cases h3 : normalize_title title =
          normalize_title (g.last_replied_title.getD "") ∧
          g.last_replied_station = some station
      · simp only [should_reply_to_radio_event, if_neg h1, if_pos h3,
          Bool.false_eq_true, if_false]
        simp
      · by_cases h4 : dictGet g.title_repeat_count
            (normalize_title title ++ "|" ++ station) + 1 > 1
        · simp only [should_reply_to_radio_event, if_neg h1, if_neg h3,
            if_pos h4, Bool.false_eq_true, if_false]
          simp
        · have h4n : ¬0 < dictGet g.title_repeat_count
              (normalize_title title ++ "|" ++ station) := by omega
          have ht : (should_reply_to_radio_event g now title station false).2 =
              true := by
            simp [should_reply_to_radio_event, if_neg h1, if_neg h3]
            rw [if_neg h4n]
          rw [ht] at hfalse
          cases hfalse

/-- Witness for C6 (amended): the invalid candidate "ab" is rejected from a
clean gate and every component of the memory is indeed unchanged. -/
theorem C6_false_leaves_reply_memory_witness :
    (should_reply_to_radio_event {} 0 "ab" "StationX" false).1.last_replied_title =
      GateState.last_replied_title {} ∧
    (should_reply_to_radio_event {} 0 "ab" "StationX" false).1.last_replied_station =
      GateState.last_replied_station {} ∧
    (should_reply_to_radio_event {} 0 "ab" "StationX" false).1.last_reply_time =
      GateState.last_reply_time {} ∧
    ((should_reply_to_radio_event {} 0 "ab" "StationX" false).1.title_repeat_count =
        GateState.title_repeat_count {} ∨
      (should_reply_to_radio_event {} 0 "ab" "StationX" false).1.title_repeat_count =
        dictSet (GateState.title_repeat_count {}) (normalize_title "ab" ++ "|" ++ "StationX")
          (dictGet (GateState.title_repeat_count {}) (normalize_title "ab" ++ "|" ++ "StationX") + 1)) :=
  C6_false_leaves_reply_memory {} 0 "ab" "StationX" false (by decide)

/-- C7: a candidate with a valid title (non-empty, no "unknown" placeholder,
stripped length at least MIN_TITLE_LENGTH) and commandTriggered set is always
accepted, whatever the prior gate memory; the repeat counter of its
(normalized title, station) key is reset to 0 and the last-replied memory is
updated. -/
theorem C7_command_triggered_accepts (g : GateState) (now : Nat)
    (title station : String) (hne : title ≠ "")
    (hunk : hasSub (toLowerStr title) "unknown" = false)
    (hlen : MIN_TITLE_LENGTH ≤ (pyStrip title).length) :
    (should_reply_to_radio_event g now title station true).2 = true ∧
    dictGet (should_reply_to_radio_event g now title station true).1.title_repeat_count
      (normalize_title title ++ "|" ++ station) = 0 ∧
    (should_reply_to_radio_event g now title station true).1.last_replied_title =
      some title ∧
    (should_reply_to_radio_event g now title station true).1.last_replied_station =
      some station ∧
    (should_reply_to_radio_event g now title station true).1.last_reply_time = now := by
  have h1 : ¬(title = "" ∨ hasSub (toLowerStr title) "unknown" = true ∨
      (pyStrip title).length < MIN_TITLE_LENGTH) := by
    push_neg
    refine ⟨hne, ?_, by omega⟩
    rw [hunk]
    exact Bool.false_ne_true
  simp only [should_reply_to_radio_event, if_neg h1, if_pos rfl]
  exact ⟨rfl, dictGet_dictSet g.title_repeat_count
    (normalize_title title ++ "|" ++ station) 0, rfl, rfl, rfl⟩

/-- Witness for C7 at a concrete gate memory that has already replied to the
same title on the same station (the command still forces acceptance). -/
theorem C7_command_triggered_accepts_witness :
    (should_reply_to_radio_event gateAfterTwoAccepts 40 "Song B" "StationX" true).2 =
      true ∧
    dictGet (should_reply_to_radio_event gateAfterTwoAccepts 40 "Song B" "StationX"
        true).1.title_repeat_count (normalize_title "Song B" ++ "|" ++ "StationX") = 0 ∧
    (should_reply_to_radio_event gateAfterTwoAccepts 40 "Song B" "StationX"
        true).1.last_replied_title = some "Song B" ∧
    (should_reply_to_radio_event gateAfterTwoAccepts 40 "Song B" "StationX"
        true).1.last_replied_station = some "StationX" ∧
    (should_reply_to_radio_event gateAfterTwoAccepts 40 "Song B" "StationX"
        true).1.last_reply_time = 40 :=
  C7_command_triggered_accepts gateAfterTwoAccepts 40 "Song B" "StationX"
    (by decide) (by decide) (by decide)

/-! ## Retrieval-failure and announce-path claims -/

/-- C1 counterexample: when every backend request fails, the Hutton retriever
does not return empty/none but the non-empty sentinel "Unavailable"; fed to a
fresh monitor, that sentinel is processed as a real title (announce outcome,
baseline set to "unavailable"), its announcement event is dispatched, and the
announce gate accepts it. -/
theorem C1_hutton_failure_counterexample :
    get_track_info (some "Hutton Orbital Radio") failedProviderWorld =
      "Unavailable" ∧
    get_hutton_track_info HuttonFetch.exn ≠ "" ∧
    (monitor_poll_tick freshMonitorState 0 "Unavailable").2 =
      Outcome.announce "Unavailable" none false ∧
    announce_emitted "Unavailable" = true ∧
    (monitor_poll_tick freshMonitorState 0 "Unavailable").1.prev_check_title =
      some "unavailable" ∧
    (should_reply_to_radio_event {} 0 "Unavailable" "Hutton Orbital Radio"
        false).2 = true := by
  exact ⟨by decide, by decide, by decide, by decide, by decide, by decide⟩

/-- C1 (amended): the SomaFM and Deejay retrievers and the VLC metadata path
return the empty string (or none, for the SomaFM helpers) on every failure
branch, and an empty title is treated as no data by the poll loop (no
announcement, monitor state unchanged apart from the poll timestamp); the
Hutton retriever however returns the non-empty sentinel "Unavailable" on
every failure branch. -/
theorem C1_failure_is_no_data (s : MonitorState) (now : Nat)
    (station : Option String) (status : Nat) (hstatus : status ≠ 200)
    (body : Option DeejayData) (songs : Option (List SomaSong)) (sid : String)
    (icy : Bool) (mlb : Option Nat) (tmatch : Option String) :
    get_deejay_track_info station DeejayFetch.exn = "" ∧
    get_deejay_track_info station (DeejayFetch.resp status body) = "" ∧
    get_deejay_track_info station (DeejayFetch.resp 200 none) = "" ∧
    get_from_json_api SomaJsonFetch.exn = none ∧
    get_from_json_api (SomaJsonFetch.resp status songs) = none ∧
    get_from_json_api (SomaJsonFetch.resp 200 none) = none ∧
    get_from_channels_api none sid = none ∧
    get_somafm_track_info none none = "" ∧
    vlc_track_info VlcMeta.no_player = "" ∧
    vlc_track_info VlcMeta.no_media = "" ∧
    vlc_track_info VlcMeta.exn = "" ∧
    get_hutton_track_info HuttonFetch.exn = "Unavailable" ∧
    get_hutton_track_info (HuttonFetch.resp status icy mlb tmatch) =
      "Unavailable" ∧
    get_hutton_track_info (HuttonFetch.resp 200 false mlb tmatch) =
      "Unavailable" ∧
    get_hutton_track_info (HuttonFetch.resp 200 true none tmatch) =
      "Unavailable" ∧
    get_hutton_track_info (HuttonFetch.resp 200 true (some 0) tmatch) =
      "Unavailable" ∧
    get_hutton_track_info (HuttonFetch.resp 200 true mlb none) = "Unavailable" ∧
    (monitor_poll_tick s now "").2 = Outcome.noAction ∧
    (monitor_poll_tick s now "").1 = { s with last_check_time := now } := by
  refine ⟨rfl, ?_, rfl, rfl, ?_, rfl, rfl, rfl, rfl, rfl, rfl, rfl, ?_, rfl,
    rfl, rfl, ?_, rfl, rfl⟩
  · simp [get_deejay_track_info, hstatus]
  · simp [get_from_json_api, hstatus]
  · simp [get_hutton_track_info, hstatus]
  · cases mlb with
    | none => rfl
    | some b =>
      by_cases hb : b * 16 > 0 <;> simp [get_hutton_track_info, hb]

/-- Witness for C1 (amended) at concrete failure responses (status 503). -/
theorem C1_failure_is_no_data_witness :
    get_deejay_track_info (some "Radio DeeJay") (DeejayFetch.resp 503 none) = "" ∧
    get_from_json_api (SomaJsonFetch.resp 503 none) = none ∧
    get_hutton_track_info (HuttonFetch.resp 503 true (some 7) (some "T")) =
      "Unavailable" ∧
    (monitor_poll_tick freshMonitorState 9 "").2 = Outcome.noAction :=
  ⟨(C1_failure_is_no_data freshMonitorState 9 (some "Radio DeeJay") 503
      (by decide) none none "lush" true (some 7) (some "T")).2.1,
   (C1_failure_is_no_data freshMonitorState 9 (some "Radio DeeJay") 503
      (by decide) none none "lush" true (some 7) (some "T")).2.2.2.2.1,
   (C1_failure_is_no_data freshMonitorState 9 (some "Radio DeeJay") 503
      (by decide) none none "lush" true (some 7) (some "T")).2.2.2.2.2.2.2.2.2.2.2.2.1,
   (C1_failure_is_no_data freshMonitorState 9 (some "Radio DeeJay") 503
      (by decide) none none "lush" true (some 7) (some "T")).2.2.2.2.2.2.2.2.2.2.2.2.2.2.2.2.2.1⟩

/-- C2 counterexample: on the first Lazy poll of a fresh MonitorState, the
non-empty raw title "ab" is stored as the baseline and takes the announce
path, yet no announcement event is dispatched to the consumer because
_announce_track drops titles whose stripped length is below
MIN_TITLE_LENGTH. -/
theorem C2_short_title_counterexample :
    (monitor_poll_tick freshMonitorState 0 "ab").2 =
      Outcome.announce "ab" none false ∧
    (monitor_poll_tick freshMonitorState 0 "ab").1.prev_check_title =
      some "ab" ∧
    announce_emitted "ab" = false := by
  exact ⟨by decide, by decide, by decide⟩

/-- C2 (amended): on the first Lazy poll with an unset baseline, any
non-empty raw title is normalized and stored as the baseline and the step
always takes the announce path; the announcement event is actually emitted
exactly when the raw title's stripped length is at least MIN_TITLE_LENGTH. -/
theorem C2_first_poll_baseline (s : MonitorState) (now : Nat) (raw : String)
    (hlazy : s.is_lazy_mode = true) (hbase : s.prev_check_title = none)
    (hne : raw ≠ "") :
    (monitor_poll_tick s now raw).1.prev_check_title =
      some (normalize_title raw) ∧
    (monitor_poll_tick s now raw).2 =
      Outcome.announce raw s.current_station s.command_triggered ∧
    (announce_emitted raw = true ↔
      MIN_TITLE_LENGTH ≤ (pyStrip raw).length) := by
  unfold monitor_poll_tick
  rw [if_neg hne,
    ptu_lazy_first { s with last_check_time := now } now raw
      (normalize_title raw) hlazy hbase]
  refine ⟨rfl, rfl, ?_⟩
  unfold announce_emitted
  rw [if_neg hne]
  exact decide_eq_true_iff

/-- Witness for C2 (amended) at a fresh state and the raw title "Song A". -/
theorem C2_first_poll_baseline_witness :
    (monitor_poll_tick freshMonitorState 3 "Song A").1.prev_check_title =
      some (normalize_title "Song A") ∧
    (monitor_poll_tick freshMonitorState 3 "Song A").2 =
      Outcome.announce "Song A" freshMonitorState.current_station
        freshMonitorState.command_triggered ∧
    (announce_emitted "Song A" = true ↔
      MIN_TITLE_LENGTH ≤ (pyStrip "Song A").length) :=
  C2_first_poll_baseline freshMonitorState 3 "Song A" rfl rfl (by decide)

/-- A _process_track_update step never sets the command flag: once cleared
it stays cleared. -/
theorem process_preserves_cleared (s : MonitorState) (now : Nat) (d n : String)
    (h : s.command_triggered = false) :
    (process_track_update s now d n).1.command_triggered = false := by
  simp only [process_track_update]
  split
  · split
    · rfl
    · split
      · rfl
      · exact h
  · split
    · rfl
    · exact h

/-- A poll-loop iteration never sets the command flag. -/
theorem tick_preserves_cleared (s : MonitorState) (now : Nat) (d : String)
    (h : s.command_triggered = false) :
    (monitor_poll_tick s now d).1.command_triggered = false := by
  unfold monitor_poll_tick
  by_cases hd : d = ""
  · rw [if_pos hd]
    exact h
  · rw [if_neg hd]
    exact process_preserves_cleared { s with last_check_time := now } now d
      (normalize_title d) h

/-- C3 counterexample: when the monitor thread starts with commandTriggered
set (the _start_radio path), the flag is cleared by the grace-delay code at
the top of _monitor_track_changes, before the poll loop runs a single
cycle, so it is not cleared by the first poll cycle that consumes it. -/
theorem C3_cleared_before_first_poll_counterexample :
    cmdMonitorState.command_triggered = true ∧
    (monitor_thread_start cmdMonitorState (some "SomaFM Lush")).command_triggered =
      false := by
  exact ⟨by decide, by decide⟩

/-- C3 (amended): commandTriggered is cleared at most once and never set by
a poll step, but not always by a poll cycle: on a fresh thread start it is
cleared by the grace-delay code before any poll; when it is set while the
loop is already running, the accompanying station reset preserves it (and
yields the lazy, baseline-unset shape) and the first poll cycle that
processes a non-empty title clears it; once false it stays false until a
command sets it again. -/
theorem C3_command_flag_lifecycle (s : MonitorState) (station : Option String)
    (now : Nat) (d : String) (hd : d ≠ "")
    (hcmd : s.command_triggered = true) (hlazy : s.is_lazy_mode = true)
    (hbase : s.prev_check_title = none) :
    (monitor_thread_start s station).command_triggered = false ∧
    (reset_for_station_change s station).command_triggered = true ∧
    (monitor_poll_tick s now d).1.command_triggered = false ∧
    (∀ s2 : MonitorState, s2.command_triggered = false → ∀ now2 d2,
      (monitor_poll_tick s2 now2 d2).1.command_triggered = false) := by
  refine ⟨?_, ?_, ?_, ?_⟩
  · unfold monitor_thread_start
    rw [if_pos hcmd]
    rfl
  · exact hcmd
  · unfold monitor_poll_tick
    rw [if_neg hd,
      ptu_lazy_first { s with last_check_time := now } now d
        (normalize_title d) hlazy hbase]
  · exact fun s2 h2 now2 d2 => tick_preserves_cleared s2 now2 d2 h2

/-- Witness for C3 (amended) at the post-command fresh state and the raw
title "Song A". -/
theorem C3_command_flag_lifecycle_witness :
    (monitor_thread_start cmdMonitorState (some "BigFM")).command_triggered =
      false ∧
    (reset_for_station_change cmdMonitorState (some "BigFM")).command_triggered =
      true ∧
    (monitor_poll_tick cmdMonitorState 0 "Song A").1.command_triggered = false ∧
    (∀ s2 : MonitorState, s2.command_triggered = false → ∀ now2 d2,
      (monitor_poll_tick s2 now2 d2).1.command_triggered = false) :=
  C3_command_flag_lifecycle cmdMonitorState (some "BigFM") 0 "Song A"
    (by decide) rfl rfl rfl

end CNRadio
